import Mathlib

/-!
Verification of the hw_device_mgr supervisor core against its
natural-language specification.

The definitions below are a shallow embedding of the Python sources:

* `src/hw_device_mgr/errors/device.py` (class `ErrorDevice`),
* `src/hw_device_mgr/mgr/mgr.py` (class `HWDeviceMgr`).

Machine integers (`uint8`, `uint32`) are represented as `Nat`; none of the
embedded code performs arithmetic that can overflow, so no explicit modular
reduction is needed.  Python `dict` error catalogs become association lists,
Python log calls become values of type `LogMsg` accumulated in a list, and
Python exceptions (the interface KeyError / fysom FysomError) become
`Except String`.  Parts of the repository that the claims depend on but that
are not in `src/` (the `Device` base class, the typed interface bundle, the
CiA-402 drive adapter, the fysom transition engine) are modelled from the
specification; each such definition carries a doc comment beginning with
`Modelled from the spec:`.
-/

namespace HwMgr

/-- Severity of a logger call (`logger.debug` / `info` / `warning` / `error`). -/
inductive LogLevel
  | debug
  | info
  | warning
  | error
deriving DecidableEq, Repr

/-- One logger call: severity and message text. -/
structure LogMsg where
  level : LogLevel
  text : String
deriving DecidableEq, Repr

/-- Accumulated logger output of one embedded call. -/
abbrev Logs := List LogMsg

/-- `HWDeviceMgr.STATE_INIT` (mgr.py). -/
def STATE_INIT : Nat := 0

/-- `HWDeviceMgr.STATE_STOP` (mgr.py). -/
def STATE_STOP : Nat := 1

/-- `HWDeviceMgr.STATE_START` (mgr.py). -/
def STATE_START : Nat := 2

/-- `HWDeviceMgr.STATE_FAULT` (mgr.py). -/
def STATE_FAULT : Nat := 4

/-- `HWDeviceMgr.cmd_int_to_name_map`: inverse of the `STATE_*` class
attributes, `{0: "init", 1: "stop", 2: "start", 4: "fault"}` (mgr.py builds
it by introspection over the `STATE_*` names; the resulting finite map is
written out directly here).  `Option` models `dict.get(key, None)`. -/
def cmdIntToName (n : Nat) : Option String :=
  if n = 0 then some "init"
  else if n = 1 then some "stop"
  else if n = 2 then some "start"
  else if n = 4 then some "fault"
  else none

/-! ## ErrorDevice (src/hw_device_mgr/errors/device.py) -/

/-- One entry of a model's error catalog: the `{description, advice}` data
stored under an error code in `device_err/{name}.yaml`. -/
structure ErrorInfo where
  description : String
  advice : String
deriving DecidableEq, Repr

/-- The `feedback_out` attributes owned by `ErrorDevice`
(`feedback_out_defaults` keys: `error_code`, `description`, `advice`). -/
structure ErrFbOut where
  error_code : Nat
  description : String
  advice : String
deriving DecidableEq, Repr

/-- `ErrorDevice.no_error = feedback_out_defaults`:
`dict(error_code=0, description="No error", advice="No error")`. -/
def no_error : ErrFbOut :=
  { error_code := 0, description := "No error", advice := "No error" }

/-- `ErrorDevice.get_feedback`.  Inputs: the device's error catalog
(`error_descriptions()`, an association list standing for the YAML-loaded
dict), the device's display name (`str(self)`), the `feedback_in`
`error_code` value, and the `feedback_out` snapshot `prev` from the previous
tick (after `advance()` the current and previous values coincide at entry,
so one record serves as both; `changed("error_code")` compares the freshly
updated current value against `prev`).  The unnamed `super().get_feedback()`
call is the `Device` base class, which is not under `src/`; modelled from
the spec, it returns the device's `feedback_out` bundle unchanged.  Returns
the updated `feedback_out` values and the logger output. -/
def errorDeviceGetFeedback (catalog : List (Nat × ErrorInfo)) (devName : String)
    (error_code : Nat) (prev : ErrFbOut) : ErrFbOut × Logs :=
  if error_code = 0 then
    -- `if not error_code:` — falsy uint32 means 0;
    -- `self.feedback_out.update(**self.no_error)` and early return, no log
    (no_error, [])
  else
    -- `self.error_descriptions().get(error_code, None)` with the unknown-code
    -- fallback dict
    let error_info : ErrorInfo :=
      match catalog.lookup error_code with
      | some info => info
      | none =>
        { description := "Unknown error code " ++ toString error_code,
          advice := "Contact technical support" }
    -- `fb_out.update(error_code=error_code, **error_info)`
    let fb : ErrFbOut :=
      { error_code := error_code,
        description := error_info.description,
        advice := error_info.advice }
    -- `if fb_out.changed("error_code"):` — current (just updated) vs previous
    let logs : Logs :=
      if fb.error_code ≠ prev.error_code then
        [⟨.error, devName ++ ":  error code " ++ toString error_code ++ ":  "
            ++ error_info.description⟩]
      else []
    (fb, logs)

/-! ## CiA-402 drive states and the drive adapter feedback

The per-drive CiA-402 engine and the drive adapter (`CiA402Device`) are not
under `src/`; the definitions of this section are modelled from the spec
(sections 3, 4.3 and 4.4). -/

/-- Modelled from the spec: `DriveCiA402State`, the CiA-402 profile state
enumeration (spec section 3). -/
inductive CiA402State
  | NOT_READY_TO_SWITCH_ON
  | SWITCH_ON_DISABLED
  | READY_TO_SWITCH_ON
  | SWITCHED_ON
  | OPERATION_ENABLED
  | QUICK_STOP_ACTIVE
  | FAULT_REACTION_ACTIVE
  | FAULT
deriving DecidableEq, Repr

/-- Display name of a CiA-402 state, as used in drive feedback strings. -/
def CiA402State.name : CiA402State → String
  | .NOT_READY_TO_SWITCH_ON => "NOT READY TO SWITCH ON"
  | .SWITCH_ON_DISABLED => "SWITCH ON DISABLED"
  | .READY_TO_SWITCH_ON => "READY TO SWITCH ON"
  | .SWITCHED_ON => "SWITCHED ON"
  | .OPERATION_ENABLED => "OPERATION ENABLED"
  | .QUICK_STOP_ACTIVE => "QUICK STOP ACTIVE"
  | .FAULT_REACTION_ACTIVE => "FAULT REACTION ACTIVE"
  | .FAULT => "FAULT"

/-- Modelled from the spec: `reached_goal(current, target)` of the drive
state machine is an exact state match (spec section 4.3). -/
def reached_goal (current target : CiA402State) : Bool :=
  current = target

/-- Per-tick hardware-side input of one drive, as consumed by the drive
adapter: the state decoded from the status word, the reported error code,
the commanded target state, the catalog description for the error code, and
the drive's display name. -/
structure DriveHwFb where
  name : String
  state : CiA402State
  error_code : Nat
  target : CiA402State
  desc : String
deriving DecidableEq, Repr

/-- One drive's `feedback_out` values as read by the manager
(`dev_fb_out.get(...)` and `dev_fb_out.changed("fault")` in
`HWDeviceMgr.get_feedback`).  `faultPrev` is the previous snapshot of the
drive's `fault` attribute, so `changed("fault")` is `fault ≠ faultPrev`. -/
structure DevFb where
  name : String
  fault : Bool
  faultPrev : Bool
  fault_desc : String
  goal_reached : Bool
  goal_reason : String
  state : CiA402State
deriving DecidableEq, Repr

/-- Modelled from the spec: the drive adapter's `get_feedback()`
(spec section 4.4): `fault` is true when the decoded state is FAULT or
FAULT REACTION ACTIVE or the error code is nonzero; `fault_desc` is the
catalog description prefixed with the drive identifier; `goal_reached` is
computed by the state machine with `goal_reason` empty when reached and a
waiting message otherwise.  `faultPrev` is the drive bundle's previous
snapshot of `fault`, carried into the result for the manager's
change detection. -/
def driveGetFeedback (hw : DriveHwFb) (faultPrev : Bool) : DevFb :=
  let fault : Bool :=
    hw.state = CiA402State.FAULT ∨ hw.state = CiA402State.FAULT_REACTION_ACTIVE
      ∨ hw.error_code ≠ 0
  let goal : Bool := reached_goal hw.state hw.target
  let curName := hw.state.name
  let tgtName := hw.target.name
  { name := hw.name
    fault := fault
    faultPrev := faultPrev
    fault_desc := if fault then hw.name ++ ": " ++ hw.desc else ""
    goal_reached := goal
    goal_reason :=
      if goal then "" else "Waiting: at " ++ curName ++ ", target " ++ tgtName
    state := hw.state }

/-! ## HWDeviceMgr.get_feedback (src/hw_device_mgr/mgr/mgr.py) -/

/-- The `command_out` values read by `HWDeviceMgr.get_feedback` (`state` and
`command_complete`), i.e. the command computed by `set_command` on the
previous tick. -/
structure MgrCmdOutView where
  state : Nat
  command_complete : Bool
deriving DecidableEq, Repr

/-- The manager `feedback_out` snapshot at entry of `get_feedback`.  After
`advance()` at the end of the previous tick the bundle's current and
previous values coincide, and nothing writes these attributes between
`advance()` and `get_feedback`, so a single record serves as both the
values read by `mgr_fb_out.get(...)` and the previous snapshot read by
`mgr_fb_out.get_old(...)` / compared by `changed(...)`. -/
structure MgrFb where
  fault : Bool
  fault_desc : String
  goal_reason : String
deriving DecidableEq, Repr

/-- The manager `feedback_out` values written by `get_feedback`
(`mgr_fb_out.update(fault=..., fault_desc=..., goal_reached=...,
goal_reason=..., enabled=...)`).  The per-device prefixed copies
(`f"{prefix}{k}"` attributes) are not represented: every prefix is nonempty
(`"d" + addr_slug`), so those updates never touch the five attributes
below. -/
structure MgrFbOut where
  fault : Bool
  fault_desc : String
  goal_reached : Bool
  goal_reason : String
  enabled : Bool
deriving DecidableEq, Repr

/-- `HWDeviceMgr.merge_device_descriptions` inner step: Python
`rev_descriptions.setdefault(desc, list()).append(str(dev))` over an
insertion-ordered dict, represented as an ordered association list. -/
def addDesc (acc : List (String × List String)) (dev desc : String) :
    List (String × List String) :=
  match acc with
  | [] => [(desc, [dev])]
  | (d, names) :: rest =>
    if d = desc then (d, names ++ [dev]) :: rest
    else (d, names) :: addDesc rest dev desc

/-- `HWDeviceMgr.merge_device_descriptions(descriptions)`: invert the
`device -> description` pairs into `description -> [device, ...]` (skipping
empty descriptions, preserving first-seen description order), then render
each group as `"description (dev_a,dev_b)"` and join with `"; "`. -/
def merge_device_descriptions (descriptions : List (String × String)) : String :=
  let rev := descriptions.foldl
    (fun acc p => if p.2 = "" then acc else addDesc acc p.1 p.2) []
  String.intercalate "; "
    (rev.map (fun g => g.1 ++ " (" ++ String.intercalate "," g.2 ++ ")"))

/-- `HWDeviceMgr.get_feedback`.  Inputs: the per-device feedback produced by
`dev.get_feedback()` in device order, the `command_out` values from the
previous tick's `set_command`, and the manager `feedback_out` snapshot `fb`
(see `MgrFb`).  The `super().get_feedback()` call is the `Device` base
class, not under `src/`; modelled from the spec, it returns the manager's
`feedback_out` bundle unchanged (spec section 4.6 step 2 assigns every
manager-level feedback attribute inside this method itself).  Returns the
updated manager feedback and the logger output. -/
def mgrGetFeedback (devs : List DevFb) (cmd : MgrCmdOutView) (fb : MgrFb) :
    MgrFbOut × Logs :=
  -- `fault = mgr_fb_out.get("fault")`, `fault_desc = mgr_fb_out.get("fault_desc")`
  let fault0 := fb.fault
  let fault_desc0 := fb.fault_desc
  -- device scan: `new_fault`, `fault_devs`, `waiting_devs`
  let new_fault := devs.any (fun d => d.fault && d.fault != d.faultPrev)
  let fault_devs := (devs.filter (fun d => d.fault)).map
    (fun d => (d.name, d.fault_desc))
  let waiting_devs := (devs.filter (fun d => !d.goal_reached)).map
    (fun d => (d.name, d.goal_reason))
  -- `goal_reached = True; goal_reason = ""` then the `command_complete` check
  let goal_reached : Bool := cmd.command_complete
  let goal_reason1 : String :=
    if !cmd.command_complete then
      if waiting_devs ≠ [] then
        "Waiting on " ++ toString waiting_devs.length ++ " devices"
      else "Waiting on device manager internal transitions"
    else ""
  -- fault feedback: STATE_FAULT stickiness, else new-fault escalation
  let faultPair : Bool × String :=
    if cmd.state = STATE_FAULT then
      -- `fault_desc = mgr_fb_out.get_old("fault_desc")`: the previous
      -- snapshot, i.e. the entry value of `fault_desc`
      (true, fb.fault_desc)
    else if new_fault then
      (true, merge_device_descriptions fault_devs)
    else (fault0, fault_desc0)
  let fault := faultPair.1
  let fault_desc := faultPair.2
  -- `if waiting_devs:` override of goal_reason
  let goal_reason :=
    if waiting_devs ≠ [] then merge_device_descriptions waiting_devs
    else goal_reason1
  -- `enabled = (state == STATE_START and goal_reached and not fault)`
  let enabled : Bool := (cmd.state = STATE_START) && goal_reached && !fault
  let out : MgrFbOut :=
    { fault := fault, fault_desc := fault_desc, goal_reached := goal_reached,
      goal_reason := goal_reason, enabled := enabled }
  -- `if mgr_fb_out.changed("goal_reason"):` debug logging
  let logs : Logs :=
    if goal_reason ≠ fb.goal_reason then
      if goal_reached then [⟨.debug, "Manager reached goal state"⟩]
      else [⟨.debug, "Waiting:  " ++ goal_reason⟩]
    else []
  (out, logs)

/-! ## Tick-indexed trace of the feedback pipeline

For the temporal claims the feedback phase is iterated over ticks.  The
commanded state consumed by `get_feedback` on each tick (the value written
by the previous tick's `set_command`, or by the `run_loop` exception
handler) is universally quantified as part of the per-tick input, so every
behaviour of the command phase is covered.  The state carried across ticks
is exactly what the feedback computation reads back: the manager
`feedback_out` snapshot and each drive's previous `fault` snapshot
(established by `advance()` at the end of the tick). -/

/-- Input of one tick of the feedback pipeline. -/
structure TickIn where
  cmdState : Nat
  cmdComplete : Bool
  drives : List DriveHwFb
deriving Repr

/-- Cross-tick state of the feedback pipeline: the manager `feedback_out`
snapshot and the previous `fault` snapshot of each drive's bundle. -/
structure SysState where
  fb : MgrFb
  drivePrev : List Bool
deriving DecidableEq, Repr

/-- One tick of the feedback pipeline: every drive's `get_feedback()`, then
the manager's `get_feedback()`, then `advance()` on all bundles (previous
snapshots become the values just computed). -/
def sysTick (s : SysState) (inp : TickIn) : SysState :=
  let devFbs := List.zipWith driveGetFeedback inp.drives s.drivePrev
  let out := (mgrGetFeedback devFbs
    { state := inp.cmdState, command_complete := inp.cmdComplete } s.fb).1
  { fb := { fault := out.fault, fault_desc := out.fault_desc,
            goal_reason := out.goal_reason },
    drivePrev := devFbs.map (fun d => d.fault) }

/-- Trace of the feedback pipeline: `sysRun inputs s0 n` is the state after
the first `n` ticks, so the feedback reported on tick `n` (0-based) is
`(sysRun inputs s0 (n+1)).fb`. -/
def sysRun (inputs : Nat → TickIn) (s0 : SysState) : Nat → SysState
  | 0 => s0
  | n + 1 => sysTick (sysRun inputs s0 n) (inputs n)

/-- Initial pipeline state for a manager with `k` drives: declared interface
defaults, `fault=False` and empty strings (spec section 4.1: every declared
key starts at its default). -/
def mgrInit (k : Nat) : SysState :=
  { fb := { fault := false, fault_desc := "", goal_reason := "" },
    drivePrev := List.replicate k false }

/-! ## HWDeviceMgr command processing (src/hw_device_mgr/mgr/mgr.py)

`set_command` and the supervisor FSM.  The fysom transition engine is not
under `src/`; modelled from the spec (section 9): an event whose source
state does not match its declared sources raises a `FysomError`; otherwise
the `on_before_*` guard runs and a `False` result raises `Canceled` with no
state change (mutations the guard made to `command_out` persist); otherwise
the state changes to the event's destination and the `on_enter_*` and
`on_change_state` callbacks run. -/

/-- The manager `command_out` interface: exactly the attributes declared by
`HWDeviceMgr.command_out_defaults` (`state`, `state_log`,
`command_complete`, `reset`, `drive_state`). -/
structure CmdOut where
  state : Nat
  state_log : String
  command_complete : Bool
  reset : Bool
  drive_state : String
deriving DecidableEq, Repr

/-- `HWDeviceMgr.command_out_defaults`. -/
def cmdOutDefaults : CmdOut :=
  { state := 0, state_log := "(Uninitialized)", command_complete := false,
    reset := false, drive_state := "SWITCH ON DISABLED" }

/-- A value held by an interface attribute (`uint8`/`bit`/`str` data types
of the `command_out` attributes). -/
inductive AttrValue
  | natV (n : Nat)
  | boolV (b : Bool)
  | strV (s : String)
deriving DecidableEq, Repr

/-- Python truthiness of an attribute value. -/
def AttrValue.truthy : AttrValue → Bool
  | .natV n => n ≠ 0
  | .boolV b => b
  | .strV s => s ≠ ""

/-- Attribute lookup on the `command_out` interface, `command_out.get(name)`.
Only the keys declared in `command_out_defaults` exist; per the interface
contract (spec section 4.1) any other name is an undeclared-attribute
programmer error, represented by `none`. -/
def CmdOut.getAttr (c : CmdOut) (key : String) : Option AttrValue :=
  if key = "state" then some (.natV c.state)
  else if key = "state_log" then some (.strV c.state_log)
  else if key = "command_complete" then some (.boolV c.command_complete)
  else if key = "reset" then some (.boolV c.reset)
  else if key = "drive_state" then some (.strV c.drive_state)
  else none

/-- The supervisor FSM states (`HWDeviceMgr.GSM` destinations plus the
initial `init_command` state). -/
inductive FsmState
  | init_command
  | init_1
  | init_complete
  | fault_1
  | fault_complete
  | start_1
  | start_2
  | start_complete
  | stop_1
  | stop_complete
deriving DecidableEq, Repr

/-- The Python name of an FSM state (`self.state`). -/
def FsmState.pyName : FsmState → String
  | .init_command => "init_command"
  | .init_1 => "init_1"
  | .init_complete => "init_complete"
  | .fault_1 => "fault_1"
  | .fault_complete => "fault_complete"
  | .start_1 => "start_1"
  | .start_2 => "start_2"
  | .start_complete => "start_complete"
  | .stop_1 => "stop_1"
  | .stop_complete => "stop_complete"

/-- The supervisor FSM events (`HWDeviceMgr.GSM` event table). -/
inductive FsmEvent
  | init_command
  | init_complete
  | fault_command
  | fault_complete
  | start_command
  | start_2
  | start_complete
  | stop_command
  | stop_complete
deriving DecidableEq, Repr

/-- The Python name of an FSM event. -/
def FsmEvent.pyName : FsmEvent → String
  | .init_command => "init_command"
  | .init_complete => "init_complete"
  | .fault_command => "fault_command"
  | .fault_complete => "fault_complete"
  | .start_command => "start_command"
  | .start_2 => "start_2"
  | .start_complete => "start_complete"
  | .stop_command => "stop_command"
  | .stop_complete => "stop_complete"

/-- Source-state admissibility of each event per the `GSM` table
(`src="*"` for the `fault_command` / `start_command` / `stop_command`
events, a single named source otherwise). -/
def eventSrcOk (ev : FsmEvent) (src : FsmState) : Bool :=
  match ev with
  | .init_command => src = .init_command
  | .init_complete => src = .init_1
  | .fault_command => true
  | .fault_complete => src = .fault_1
  | .start_command => true
  | .start_2 => src = .start_1
  | .start_complete => src = .start_2
  | .stop_command => true
  | .stop_complete => src = .stop_1

/-- Destination state of each event per the `GSM` table. -/
def eventDst : FsmEvent → FsmState
  | .init_command => .init_1
  | .init_complete => .init_complete
  | .fault_command => .fault_1
  | .fault_complete => .fault_complete
  | .start_command => .start_1
  | .start_2 => .start_2
  | .start_complete => .start_complete
  | .stop_command => .stop_1
  | .stop_complete => .stop_complete

/-- `HWDeviceMgr.fsm_command_from_event`: `e.dst.split("_")[0]`, the command
family of the event's destination state. -/
def eventCmdName (ev : FsmEvent) : String :=
  match ev with
  | .init_command | .init_complete => "init"
  | .fault_command | .fault_complete => "fault"
  | .start_command | .start_2 | .start_complete => "start"
  | .stop_command | .stop_complete => "stop"

/-- `HWDeviceMgr.cmd_name_to_int_map` restricted to the four command
families (`{"init": 0, "stop": 1, "start": 2, "fault": 4}`). -/
def cmdNameToInt (s : String) : Nat :=
  if s = "init" then STATE_INIT
  else if s = "stop" then STATE_STOP
  else if s = "start" then STATE_START
  else STATE_FAULT

/-- A device as seen by the FSM guards: the `oper` and `goal_reached`
attributes of its `feedback_out`, matched by `query_devices(oper=False)`
and `query_devices(goal_reached=False)`. -/
structure DevView where
  oper : Bool
  goal_reached : Bool
deriving DecidableEq, Repr

/-- `HWDeviceMgr.fsm_check_devices_online`:
`query_devices(oper=False)`, the devices not yet operational. -/
def queryNotOper (devs : List DevView) : List DevView :=
  devs.filter (fun d => d.oper = false)

/-- `HWDeviceMgr.fsm_check_drive_goal_state` body:
`query_devices(goal_reached=False)`, the devices that have not reached
their goal state; the guard succeeds when this list is empty. -/
def queryGoalNotReached (devs : List DevView) : List DevView :=
  devs.filter (fun d => d.goal_reached = false)

/-- Python `str.startswith` over the string's character list (equivalent
to `String.startsWith`, but structurally computable so that proofs can
evaluate it). -/
def strStartsWith (s pre : String) : Bool :=
  s.data.take pre.data.length == pre.data

/-- `HWDeviceMgr.fsm_check_command`.  Inputs: the event, its source state,
the event message `e.msg`, the current `command_out` values and the
previous `command_out` snapshot (for `changed("state")`).  Returns the
guard verdict, the updated `command_out`, and the logger output. -/
def fsm_check_command (ev : FsmEvent) (src : FsmState) (msg : String)
    (cur prev : CmdOut) : Bool × CmdOut × Logs :=
  let cmdStr := eventCmdName ev
  let cmdInt := cmdNameToInt cmdStr
  let srcName := src.pyName
  if (strStartsWith srcName "init" ∧ src ≠ .init_complete) ∧ cmdInt ≠ STATE_INIT
  then
    -- do not preempt init
    let m := "Ignoring " ++ cmdStr ++ " command in init state " ++ srcName
    let cur1 := { cur with state := STATE_INIT, state_log := m }
    let logs : Logs :=
      if cur1.state ≠ prev.state then [⟨.warning, m⟩] else []
    (false, cur1, logs)
  else if srcName ≠ cmdStr ++ "_command" ∧ strStartsWith srcName cmdStr then
    -- already running
    let m := "Ignoring " ++ cmdStr ++ " command from state " ++ srcName
    (false, cur, [⟨.warning, m⟩])
  else
    let cur1 := { cur with
      state := cmdInt
      state_log := msg
      command_complete := false }
    (true, cur1, [⟨.debug, "Received " ++ cmdStr ++ " command:  " ++ msg⟩])

/-- The `on_before_*` guard attached to each event (`fysom` runs it before
the transition; `fault_complete` has no guard).  Returns the verdict, the
possibly updated `command_out`, and the logger output. -/
def onBefore (ev : FsmEvent) (src : FsmState) (msg : String)
    (cur prev : CmdOut) (devs : List DevView) : Bool × CmdOut × Logs :=
  match ev with
  | .init_command | .start_command | .stop_command =>
    fsm_check_command ev src msg cur prev
  | .fault_command =>
    let r := fsm_check_command ev src msg cur prev
    if r.1 then (true, r.2.1, r.2.2 ++ [⟨.error, "Entering fault state"⟩])
    else (false, r.2.1, r.2.2)
  | .init_complete =>
    if (queryNotOper devs).isEmpty = false then (false, cur, [])
    else ((queryGoalNotReached devs).isEmpty, cur, [])
  | .start_2 | .start_complete | .stop_complete =>
    ((queryGoalNotReached devs).isEmpty, cur, [])
  | .fault_complete => (true, cur, [])

/-- `HWDeviceMgr.fsm_finalize_command`: mark the command complete and log. -/
def fsm_finalize_command (ev : FsmEvent) (cur : CmdOut) : CmdOut × Logs :=
  ({ cur with command_complete := true },
   [⟨.info, "Command " ++ eventCmdName ev ++ " completed"⟩])

/-- `HWDeviceMgr.fsm_set_drive_state_cmd`: log and set the per-drive target
state command `drive_state`. -/
def fsm_set_drive_state_cmd (ev : FsmEvent) (st : String) (cur : CmdOut) :
    CmdOut × Logs :=
  ({ cur with drive_state := st },
   [⟨.info, eventCmdName ev ++ " command:  Setting drive state command to "
      ++ st⟩])

/-- The `on_enter_*` action of each event's destination state.  Returns the
updated `command_out`, the logger output, and the `e.reset` attribute left
on the event (`True` only by `on_enter_start_2`; `on_enter_start_complete`
sets it to `False`; elsewhere `getattr(e, "reset", False)` defaults it). -/
def onEnter (ev : FsmEvent) (cur : CmdOut) : CmdOut × Logs × Bool :=
  match ev with
  | .init_command =>
    (cur, [⟨.info, "Waiting for devices to come online before init"⟩], false)
  | .init_complete =>
    let r := fsm_finalize_command ev cur
    let cur1 := { r.1 with
      state := STATE_STOP
      state_log := "Automatic \x27stop\x27 command at init complete" }
    (cur1,
     r.2 ++ [⟨.info, "Devices all online; commanding stop state"⟩], false)
  | .fault_command =>
    let r := fsm_set_drive_state_cmd ev "FAULT" cur
    (r.1, r.2, false)
  | .fault_complete =>
    let r := fsm_finalize_command ev cur
    (r.1, r.2, false)
  | .start_command =>
    let r := fsm_set_drive_state_cmd ev "SWITCHED ON" cur
    (r.1, r.2, false)
  | .start_2 =>
    let r := fsm_set_drive_state_cmd ev "OPERATION ENABLED" cur
    (r.1, r.2, true)
  | .start_complete =>
    let r := fsm_finalize_command ev cur
    (r.1, r.2, false)
  | .stop_command =>
    let r := fsm_set_drive_state_cmd ev "SWITCH ON DISABLED" cur
    (r.1, r.2, false)
  | .stop_complete =>
    let r := fsm_finalize_command ev cur
    (r.1, r.2, false)

/-- Outcome tag of a `trigger` call: transition taken, guard `Canceled`, or
`FysomError` (event not admissible from the current state). -/
inductive TrigStatus
  | ok
  | canceled
  | fysomError
deriving DecidableEq, Repr

/-- Result of a `trigger` call. -/
structure TrigOut where
  status : TrigStatus
  fsm : FsmState
  cmdOut : CmdOut
  logs : Logs
deriving DecidableEq, Repr

/-- Modelled from the spec: `FysomGlobalMixin.trigger(event, msg=...)`
driving the `GSM` machine with the manager's callbacks: source check, the
`on_before_*` guard (a `False` verdict cancels the transition but keeps the
guard's `command_out` updates), the state change, the `on_enter_*` action,
and the `on_change_state` hook (which writes the `reset` command and logs
when it changed against the previous snapshot `prev`). -/
def trigger (ev : FsmEvent) (msg : String) (fsm : FsmState)
    (cur prev : CmdOut) (devs : List DevView) : TrigOut :=
  if eventSrcOk ev fsm = false then
    { status := .fysomError, fsm := fsm, cmdOut := cur, logs := [] }
  else
    let g := onBefore ev fsm msg cur prev devs
    if g.1 = false then
      { status := .canceled, fsm := fsm, cmdOut := g.2.1, logs := g.2.2 }
    else
      let e := onEnter ev g.2.1
      let cur2 := { e.1 with reset := e.2.2 }
      let logsR : Logs :=
        if cur2.reset ≠ prev.reset then
          [⟨.info, "Reset command set to " ++ toString cur2.reset⟩]
        else []
      { status := .ok, fsm := eventDst ev, cmdOut := cur2,
        logs := g.2.2 ++ e.2.1 ++ logsR }

/-- The manager `command_in` attributes (`state_cmd`, `state_set`). -/
structure CmdIn where
  state_cmd : Nat
  state_set : Bool
deriving DecidableEq, Repr

/-- Result of one `HWDeviceMgr.set_command` call. -/
structure SetCmdResult where
  fsm : FsmState
  cmdOut : CmdOut
  fastTrack : Bool
  logs : Logs
deriving DecidableEq, Repr

/-- `f"{cmd_str}_command"` resolved to the `GSM` event of that name; `none`
for a string naming no event (fysom would raise, but every caller passes a
value of `cmd_int_to_name_map`). -/
def commandEventOf (s : String) : Option FsmEvent :=
  if s = "init" then some .init_command
  else if s = "stop" then some .stop_command
  else if s = "start" then some .start_command
  else if s = "fault" then some .fault_command
  else none

/-- `HWDeviceMgr.automatic_next_event` inner lookup:
`fsm_next_state_map[state_str].get(self.state, f"{state_str}_command")`.
`none` means the map holds `None` (command arrived, no automatic event). -/
def autoNextEvent (cmdStr : String) (fsm : FsmState) : Option FsmEvent :=
  if cmdStr = "init" then
    match fsm with
    | .init_1 => some .init_complete
    | .init_complete => none
    | _ => some .init_command
  else if cmdStr = "start" then
    match fsm with
    | .start_1 => some .start_2
    | .start_2 => some .start_complete
    | .start_complete => none
    | _ => some .start_command
  else if cmdStr = "stop" then
    match fsm with
    | .stop_1 => some .stop_complete
    | .stop_complete => none
    | _ => some .stop_command
  else if cmdStr = "fault" then
    match fsm with
    | .fault_1 => some .fault_complete
    | .fault_complete => none
    | _ => some .fault_command
  else none

/-- `HWDeviceMgr.set_command`.  Inputs: the FSM state, the `command_out`
values at entry (`cmdCur`, which `old_cmd_out` copies) and the previous
`command_out` snapshot `cmdPrev` (what `changed(...)` compares against;
equal to `cmdCur` whenever the previous tick completed its `advance()`),
the `command_in` values and their previous snapshot (for
`rising_edge("state_set")`), the manager `feedback_out` `fault` value and
its previous snapshot (for the new-fault check), and the devices as seen by
the FSM guards.  `super().set_command()` initializes the interface and
`cmd_out.update(**old_cmd_out)` restores the entry values, so their net
effect is the identity.  `set_drive_command()` copies `drive_state` and the
prefix-matched `command_in` values into each device's `set_command` and
does not change manager state; it is not represented.  Exceptions
(the undeclared-attribute KeyError, fysom `FysomError`) become
`Except.error`; fysom `Canceled` is caught where the source catches it. -/
def set_command (fsm : FsmState) (cmdCur cmdPrev : CmdOut)
    (cmdIn cmdInPrev : CmdIn) (fbFault fbFaultPrev : Bool)
    (devs : List DevView) : Except String SetCmdResult := do
  let out0 := cmdCur
  -- check for new external command
  let rising := !cmdInPrev.state_set && cmdIn.state_set
  let stateInt := cmdIn.state_cmd
  let ext : Bool × Logs :=
    if rising then
      match cmdIntToName stateInt with
      | none =>
        (false, [⟨.error, "Invalid state command, \x27"
          ++ toString stateInt ++ "\x27"⟩])
      | some nm =>
        if stateInt = out0.state then
          (false,
           [⟨.info, "State command set:  \x27" ++ nm ++ "\x27 (unchanged)"⟩])
        else (true, [⟨.info, "State command set:  \x27" ++ nm ++ "\x27"⟩])
    else (false, [])
  let effect0 := ext.1
  let logs0 := ext.2
  -- a new fault will override the external command update
  let new_fault_fb := fbFault && (fbFault != fbFaultPrev)
  let step1 : Except String (CmdOut × Bool × Logs) :=
    if new_fault_fb && !(cmdCur.state == STATE_FAULT) then
      -- set_command_handle_fault_fb()
      let lw : Logs :=
        if fbFault != fbFaultPrev then
          [⟨.warning, "Manager/device fault; entering fault state"⟩]
        else []
      let out1 := { out0 with state := STATE_FAULT, state_log := "Manager fault" }
      if effect0 then
        -- `if effect_external_state_cmd and cmd_out.get("fault"):` — the
        -- command_out interface declares no "fault" attribute, so this
        -- `get` is an undeclared-attribute programmer error
        match out1.getAttr "fault" with
        | none => Except.error "KeyError: \x27fault\x27 undeclared in command_out"
        | some v =>
          if v.truthy then
            let nmStr := (cmdIntToName stateInt).getD "None"
            Except.ok (out1, false, lw ++ [⟨.warning,
              "Ignoring new \x27" ++ nmStr ++ "\x27 command after fault"⟩])
          else Except.ok (out1, true, lw)
      else Except.ok (out1, effect0, lw)
    else Except.ok (out0, effect0, [])
  let (out1, effect1, logs1) ← step1
  -- state_set went high; latch state_cmd
  let step2 : Except String CmdOut :=
    if effect1 then
      let o := { out1 with state := cmdIn.state_cmd }
      if o.state ≠ cmdPrev.state then
        match cmdIntToName o.state with
        | none => Except.error "KeyError: cmd_int_to_name_map"
        | some nm =>
          Except.ok { o with state_log := "External command \x27" ++ nm ++ "\x27" }
      else Except.ok o
    else Except.ok out1
  let out2 ← step2
  -- `if cmd_out.changed("state"):` — try the FSM command event; an
  -- `elif` automatic transition otherwise
  let disp : Except String (FsmState × CmdOut × Logs × Bool) :=
    if out2.state ≠ cmdPrev.state then
      match cmdIntToName out2.state with
      | none => Except.error "KeyError: cmd_int_to_name_map"
      | some cmdStr =>
        let dbg : Logs := [⟨.debug, "New state command:  " ++ cmdStr
          ++ " (" ++ toString out2.state ++ ")"⟩]
        match commandEventOf cmdStr with
        | none => Except.error "FysomError: undefined event"
        | some ev =>
          let tr := trigger ev out2.state_log fsm out2 cmdPrev devs
          match tr.status with
          | .fysomError => Except.error ("FysomError: event " ++ ev.pyName
              ++ " inappropriate in current state " ++ fsm.pyName)
          | .canceled =>
            Except.ok (fsm, tr.cmdOut, dbg ++ tr.logs ++ [⟨.warning,
              "Unable to honor " ++ ev.pyName ++ " command"⟩], false)
          | .ok => Except.ok (tr.fsm, tr.cmdOut, dbg ++ tr.logs, false)
    else
      match cmdIntToName out2.state with
      | none => Except.error "KeyError: fsm_next_state_map"
      | some cmdStr =>
        match autoNextEvent cmdStr fsm with
        | none => Except.ok (fsm, out2, [], false)
        | some ev =>
          let m := "Automatic transition from " ++ fsm.pyName ++ " state"
          let tr := trigger ev m fsm out2 cmdPrev devs
          match tr.status with
          | .fysomError => Except.error ("FysomError: event " ++ ev.pyName
              ++ " inappropriate in current state " ++ fsm.pyName)
          | .canceled =>
            -- `except Canceled: pass` — transition silently not taken
            Except.ok (fsm, tr.cmdOut, tr.logs, false)
          | .ok =>
            -- transition succeeded; fast-track the next update
            Except.ok (tr.fsm, tr.cmdOut, tr.logs, true)
  let (fsmF, outF, logsD, ft) ← disp
  -- `if cmd_out.changed("state_log"):` debug logging
  let logsF : Logs :=
    if outF.state_log ≠ cmdPrev.state_log then
      [⟨.debug, "State:  " ++ outF.state_log⟩]
    else []
  Except.ok { fsm := fsmF, cmdOut := outF, fastTrack := ft,
              logs := logs0 ++ logs1 ++ logsD ++ logsF }

/-! ## Main loop (HWDeviceMgr.run_loop / read_update_write) -/

/-- What a tick's read / get_feedback / set_command / write phases did, as
seen by the exception handling of `read_update_write` and `run_loop`: they
completed normally, raised an unhandled exception, or raised
`KeyboardInterrupt`. -/
inductive TickExc
  | exc
  | kbInt
deriving DecidableEq, Repr

/-- State carried by `run_loop` across ticks: the `command_out` values, the
`shutdown` and `fast_track` flags, and the accumulated log. -/
structure LoopState where
  cmdOut : CmdOut
  shutdown : Bool
  fast_track : Bool
  logs : Logs
deriving DecidableEq, Repr

/-- One `run_loop` iteration body.  `outcome` is how this tick's
`read_update_write` phases ended; `phases` abstracts the net effect of a
normally completing tick on `command_out` (whatever `set_command` and the
exception-free path computed).  `read_update_write` catches
`KeyboardInterrupt` and sets `shutdown`; `run_loop` catches any other
exception, logs it, and forces `state=STATE_FAULT` with
`state_log="Unexpected exception"`; then the `fast_track` flag decides
whether the inter-tick sleep is skipped. -/
def run_loop_step (phases : CmdOut → CmdOut) (outcome : Option TickExc)
    (st : LoopState) : LoopState :=
  let st1 : LoopState :=
    match outcome with
    | none => { st with cmdOut := phases st.cmdOut }
    | some .kbInt =>
      -- caught inside read_update_write: log and set shutdown
      { st with
        shutdown := true
        logs := st.logs ++ [⟨.info, "KeyboardInterrupt"⟩] }
    | some .exc =>
      -- caught by run_loop: log, enter fault mode, keep looping
      { st with
        cmdOut := { st.cmdOut with
          state := STATE_FAULT
          state_log := "Unexpected exception" }
        logs := st.logs ++
          [⟨.error, "Ignoring unexpected exception; details:"⟩] }
  -- `if self.fast_track: self.fast_track = False; continue` — skip the sleep
  if st1.fast_track then { st1 with fast_track := false } else st1

/-- `HWDeviceMgr.run_loop`: `while not self.shutdown:` over a finite
schedule of tick outcomes. -/
def run_loop (phases : CmdOut → CmdOut) (outcomes : List (Option TickExc))
    (st : LoopState) : LoopState :=
  match outcomes with
  | [] => st
  | o :: rest =>
    if st.shutdown then st
    else run_loop phases rest (run_loop_step phases o st)

/-! ## Concrete inputs used by counterexamples and witnesses -/

/-- A drive that has dropped from OPERATION ENABLED back to SWITCHED ON
with no error code: its adapter feedback reports no fault. -/
def c1Drive : DriveHwFb :=
  { name := "drive_a", state := .SWITCHED_ON, error_code := 0,
    target := .OPERATION_ENABLED, desc := "" }

/-- Manager `command_out` view after `start_complete`: commanded state
START with the command marked complete. -/
def c1Cmd : MgrCmdOutView := { state := STATE_START, command_complete := true }

/-- Manager `feedback_out` snapshot with no standing fault. -/
def c1Fb : MgrFb := { fault := false, fault_desc := "", goal_reason := "" }

/-- Constant tick input used by the C2 trace witness: STATE_FAULT
commanded, no drives. -/
def c2In : TickIn :=
  { cmdState := STATE_FAULT, cmdComplete := false, drives := [] }

/-- Drive input used by the C5 trace witness: permanently in FAULT. -/
def c5Hw : DriveHwFb :=
  { name := "drive_b", state := .FAULT, error_code := 0,
    target := .OPERATION_ENABLED, desc := "" }

/-- Constant tick input used by the C5 trace witness. -/
def c5In : TickIn :=
  { cmdState := STATE_STOP, cmdComplete := false, drives := [c5Hw] }

/-- `command_out` values at `start_complete` with the start command
complete: the state the supervisor is in when a mid-operation fault meets
an external command (C3's failing input). -/
def c3CmdOut : CmdOut :=
  { state := STATE_START, state_log := "External command \x27start\x27",
    command_complete := true, reset := false,
    drive_state := "OPERATION ENABLED" }

/-- External STOP command arriving this tick (`state_set` rising edge). -/
def c3CmdIn : CmdIn := { state_cmd := STATE_STOP, state_set := true }

/-- Previous `command_in` snapshot: `state_set` still low. -/
def c3CmdInPrev : CmdIn := { state_cmd := STATE_STOP, state_set := false }

/-- Loop state used by the C8 witness. -/
def c8St : LoopState :=
  { cmdOut := cmdOutDefaults, shutdown := false, fast_track := false,
    logs := [] }

/-! ## Helper lemmas -/

/-- Characterization of the `fault` attribute computed by
`HWDeviceMgr.get_feedback`. -/
theorem mgrGetFeedback_fault (devs : List DevFb) (cmd : MgrCmdOutView)
    (fb : MgrFb) :
    (mgrGetFeedback devs cmd fb).1.fault =
      (if cmd.state = STATE_FAULT then true
       else if devs.any (fun d => d.fault && d.fault != d.faultPrev) then true
       else fb.fault) := by
  unfold mgrGetFeedback
  dsimp only
  split
  · rfl
  · split <;> rfl

/-- Characterization of the `fault_desc` attribute computed by
`HWDeviceMgr.get_feedback`. -/
theorem mgrGetFeedback_fault_desc (devs : List DevFb) (cmd : MgrCmdOutView)
    (fb : MgrFb) :
    (mgrGetFeedback devs cmd fb).1.fault_desc =
      (if cmd.state = STATE_FAULT then fb.fault_desc
       else if devs.any (fun d => d.fault && d.fault != d.faultPrev) then
         merge_device_descriptions
           ((devs.filter (fun d => d.fault)).map (fun d => (d.name, d.fault_desc)))
       else fb.fault_desc) := by
  unfold mgrGetFeedback
  dsimp only
  split
  · rfl
  · split <;> rfl

/-- The `enabled` attribute computed by `HWDeviceMgr.get_feedback` in terms
of the other computed attributes. -/
theorem mgrGetFeedback_enabled (devs : List DevFb) (cmd : MgrCmdOutView)
    (fb : MgrFb) :
    (mgrGetFeedback devs cmd fb).1.enabled =
      (decide (cmd.state = STATE_START) &&
        (mgrGetFeedback devs cmd fb).1.goal_reached &&
        !(mgrGetFeedback devs cmd fb).1.fault) := rfl

/-! ## Claims -/

/-- Claim C7: for every tick, the `goal_reached` attribute computed by
`HWDeviceMgr.get_feedback` equals `command_out`'s `command_complete` — false
when `command_complete` is false and true when it is true, irrespective of
the per-drive `goal_reached` values (the `devs` argument is arbitrary). -/
theorem c7_goal_reached_eq_command_complete (devs : List DevFb)
    (cmd : MgrCmdOutView) (fb : MgrFb) :
    (mgrGetFeedback devs cmd fb).1.goal_reached = cmd.command_complete := rfl

/-- Claim C1 (as written) is false: at a concrete reachable input —
commanded state START with the start command complete, no standing fault,
and the single drive reporting SWITCHED ON with error code 0 (so its
adapter feedback carries no fault) — `get_feedback` computes
`enabled = true` although the drive is not at OPERATION ENABLED. -/
theorem c1_counterexample :
    ¬ (((mgrGetFeedback [driveGetFeedback c1Drive false] c1Cmd c1Fb).1.enabled
          = true) →
        (c1Cmd.state = STATE_START ∧
         (mgrGetFeedback [driveGetFeedback c1Drive false] c1Cmd c1Fb).1.goal_reached
           = true ∧
         (mgrGetFeedback [driveGetFeedback c1Drive false] c1Cmd c1Fb).1.fault
           = false ∧
         ∀ hw ∈ [c1Drive], hw.state = CiA402State.OPERATION_ENABLED)) := by
  decide

/-- Claim C1 (amended): whenever `HWDeviceMgr.get_feedback` computes
`enabled = true`, the commanded state is STATE_START, the computed
`goal_reached` is true and the computed `fault` is false.  (The claim's
further conjunct that every drive is then at OPERATION ENABLED is refuted
by `c1_counterexample`: `enabled` is computed from the commanded state,
`goal_reached` and `fault` only.) -/
theorem c1_enabled_invariant (devs : List DevFb) (cmd : MgrCmdOutView)
    (fb : MgrFb)
    (h : (mgrGetFeedback devs cmd fb).1.enabled = true) :
    cmd.state = STATE_START ∧
      (mgrGetFeedback devs cmd fb).1.goal_reached = true ∧
      (mgrGetFeedback devs cmd fb).1.fault = false := by
  rw [mgrGetFeedback_enabled] at h
  simp only [Bool.and_eq_true, Bool.not_eq_true', decide_eq_true_eq] at h
  exact ⟨h.1.1, h.1.2, h.2⟩

/-- Witness for `c1_enabled_invariant` at a concrete input: one drive at
OPERATION ENABLED with the start command complete. -/
theorem c1_enabled_invariant_witness :
    (mgrGetFeedback
        [driveGetFeedback
          { name := "drive_a", state := .OPERATION_ENABLED, error_code := 0,
            target := .OPERATION_ENABLED, desc := "" } false]
        c1Cmd c1Fb).1.enabled = true ∧
      c1Cmd.state = STATE_START ∧
      (mgrGetFeedback
        [driveGetFeedback
          { name := "drive_a", state := .OPERATION_ENABLED, error_code := 0,
            target := .OPERATION_ENABLED, desc := "" } false]
        c1Cmd c1Fb).1.goal_reached = true ∧
      (mgrGetFeedback
        [driveGetFeedback
          { name := "drive_a", state := .OPERATION_ENABLED, error_code := 0,
            target := .OPERATION_ENABLED, desc := "" } false]
        c1Cmd c1Fb).1.fault = false :=
  ⟨by decide, c1_enabled_invariant _ _ _ (by decide)⟩

/-- Claim C4: for every error code that is nonzero (so the lookup happens)
and absent from the model's error catalog, `ErrorDevice.get_feedback`
records exactly the entry with description `"Unknown error code <code>"`
(the code rendered in decimal by `toString`) and advice
`"Contact technical support"`. -/
theorem c4_unknown_error_entry (catalog : List (Nat × ErrorInfo))
    (devName : String) (ec : Nat) (prev : ErrFbOut)
    (h0 : ec ≠ 0) (hu : catalog.lookup ec = none) :
    (errorDeviceGetFeedback catalog devName ec prev).1 =
      { error_code := ec,
        description := "Unknown error code " ++ toString ec,
        advice := "Contact technical support" } := by
  unfold errorDeviceGetFeedback
  rw [if_neg h0, hu]

/-- Witness for `c4_unknown_error_entry` at the spec's S6 input
`error_code = 0xDEAD = 57005` with an empty catalog: the decimal rendering
is `"Unknown error code 57005"`. -/
theorem c4_unknown_error_entry_witness :
    (57005 : Nat) ≠ 0 ∧
      (([] : List (Nat × ErrorInfo)).lookup 57005 = none) ∧
      (errorDeviceGetFeedback [] "drive" 57005 no_error).1 =
        { error_code := 57005, description := "Unknown error code 57005",
          advice := "Contact technical support" } :=
  ⟨by decide, rfl, by
    rw [c4_unknown_error_entry [] "drive" 57005 no_error (by decide) rfl]
    rfl⟩

/-- Claim C10: when `feedback_in`'s `error_code` is 0,
`ErrorDevice.get_feedback` resets `error_code`, `description` and `advice`
to the no-error defaults `(0, "No error", "No error")` and logs nothing,
for every catalog and every previous-tick snapshot (in particular one whose
`error_code` was nonzero). -/
theorem c10_zero_error_code_resets (catalog : List (Nat × ErrorInfo))
    (devName : String) (prev : ErrFbOut) :
    errorDeviceGetFeedback catalog devName 0 prev =
      ({ error_code := 0, description := "No error", advice := "No error" },
       ([] : Logs)) := rfl

/-- On a tick whose commanded state is STATE_FAULT, `get_feedback` reports
`fault=true` and copies `fault_desc` unchanged from the previous snapshot
(`get_old("fault_desc")`). -/
theorem sysTick_fault_state (s : SysState) (inp : TickIn)
    (h : inp.cmdState = STATE_FAULT) :
    (sysTick s inp).fb.fault = true ∧
      (sysTick s inp).fb.fault_desc = s.fb.fault_desc := by
  unfold sysTick
  dsimp only
  rw [mgrGetFeedback_fault, mgrGetFeedback_fault_desc]
  dsimp only
  rw [if_pos h, if_pos h]
  exact ⟨rfl, rfl⟩

/-- Claim C2: along any trace of the feedback pipeline (the per-tick
commanded state is universally quantified, covering every behaviour of the
command phase), if the commanded state is STATE_FAULT on every tick of the
interval `[t, m]`, then on each such tick `get_feedback` reports
`fault = true` and a `fault_desc` equal to the snapshot in force at the
start of the interval — the value recorded at the tick the supervisor
entered the fault state when `t` is the first such tick — so `fault_desc`
never changes while the supervisor remains in STATE_FAULT. -/
theorem c2_fault_desc_sticky (inputs : Nat → TickIn) (s0 : SysState)
    (t m : Nat)
    (hF : ∀ u, t ≤ u → u ≤ m → (inputs u).cmdState = STATE_FAULT) :
    ∀ u, t ≤ u → u ≤ m →
      (sysRun inputs s0 (u + 1)).fb.fault = true ∧
      (sysRun inputs s0 (u + 1)).fb.fault_desc =
        (sysRun inputs s0 t).fb.fault_desc := by
  intro u htu
  induction u, htu using Nat.le_induction with
  | base =>
    intro htm
    exact sysTick_fault_state (sysRun inputs s0 t) (inputs t)
      (hF t le_rfl htm)
  | succ n hn ih =>
    intro hm
    have ihh := ih (le_trans (Nat.le_succ n) hm)
    have h := sysTick_fault_state (sysRun inputs s0 (n + 1)) (inputs (n + 1))
      (hF (n + 1) (le_trans hn (Nat.le_succ n)) hm)
    exact ⟨h.1, h.2.trans ihh.2⟩

/-- Witness for `c2_fault_desc_sticky`: a two-tick interval of STATE_FAULT
commands on a zero-drive trace. -/
theorem c2_fault_desc_sticky_witness :
    (sysRun (fun _ => c2In) (mgrInit 0) 2).fb.fault = true ∧
      (sysRun (fun _ => c2In) (mgrInit 0) 2).fb.fault_desc =
      (sysRun (fun _ => c2In) (mgrInit 0) 0).fb.fault_desc :=
  c2_fault_desc_sticky _ (mgrInit 0) 0 1 (fun _ _ _ => rfl) 1
    (Nat.zero_le 1) le_rfl

/-- Indexing a `zipWith` when both lists hold something at the index. -/
theorem zipWith_getElem?_some {α β γ : Type _} (f : α → β → γ) :
    ∀ (as : List α) (bs : List β) (j : Nat) (a : α) (b : β),
      as[j]? = some a → bs[j]? = some b →
      (List.zipWith f as bs)[j]? = some (f a b) := by
  intro as
  induction as with
  | nil => intro bs j a b ha _; simp at ha
  | cons a' as ih =>
    intro bs j a b ha hb
    cases bs with
    | nil => simp at hb
    | cons b' bs =>
      cases j with
      | zero =>
        simp only [List.getElem?_cons_zero, Option.some.injEq] at ha hb
        subst ha; subst hb
        simp [List.zipWith_cons_cons]
      | succ j =>
        simp only [List.getElem?_cons_succ] at ha hb
        simpa [List.zipWith_cons_cons] using ih bs j a b ha hb

/-- Inversion of indexing a `zipWith`. -/
theorem zipWith_getElem?_inv {α β γ : Type _} (f : α → β → γ) :
    ∀ (as : List α) (bs : List β) (j : Nat) (c : γ),
      (List.zipWith f as bs)[j]? = some c →
      ∃ a b, as[j]? = some a ∧ bs[j]? = some b ∧ c = f a b := by
  intro as
  induction as with
  | nil => intro bs j c h; simp at h
  | cons a' as ih =>
    intro bs j c h
    cases bs with
    | nil => simp at h
    | cons b' bs =>
      cases j with
      | zero =>
        simp only [List.zipWith_cons_cons, List.getElem?_cons_zero,
          Option.some.injEq] at h
        exact ⟨a', b', by simp, by simp, h.symm⟩
      | succ j =>
        simp only [List.zipWith_cons_cons, List.getElem?_cons_succ] at h
        obtain ⟨a, b, ha, hb, hc⟩ := ih bs j c h
        exact ⟨a, b, by simpa using ha, by simpa using hb, hc⟩

/-- The drive adapter carries its previous fault snapshot through. -/
theorem driveGetFeedback_faultPrev (hw : DriveHwFb) (p : Bool) :
    (driveGetFeedback hw p).faultPrev = p := rfl

/-- A drive reporting the FAULT state yields fault feedback. -/
theorem driveGetFeedback_fault_of_FAULT (hw : DriveHwFb) (p : Bool)
    (h : hw.state = CiA402State.FAULT) :
    (driveGetFeedback hw p).fault = true := by
  simp [driveGetFeedback, h]

/-- The manager fault output never falls while the standing fault is set. -/
theorem mgrGetFeedback_fault_of_fb (devs : List DevFb) (cmd : MgrCmdOutView)
    (fb : MgrFb) (h : fb.fault = true) :
    (mgrGetFeedback devs cmd fb).1.fault = true := by
  rw [mgrGetFeedback_fault]
  split
  · rfl
  · split
    · rfl
    · exact h

/-- A device-fault rising edge sets the manager fault output. -/
theorem mgrGetFeedback_fault_of_any (devs : List DevFb) (cmd : MgrCmdOutView)
    (fb : MgrFb)
    (h : devs.any (fun d => d.fault && d.fault != d.faultPrev) = true) :
    (mgrGetFeedback devs cmd fb).1.fault = true := by
  rw [mgrGetFeedback_fault, h]
  split <;> rfl

/-- Tick-level fault monotonicity. -/
theorem sysTick_fault_mono (s : SysState) (inp : TickIn)
    (h : s.fb.fault = true) : (sysTick s inp).fb.fault = true := by
  unfold sysTick
  dsimp only
  exact mgrGetFeedback_fault_of_fb _ _ _ h

/-- Trace invariant: a set previous fault snapshot of some drive implies
the manager fault is set. -/
abbrev drivePrevInv (s : SysState) : Prop :=
  ∀ j : Nat, s.drivePrev[j]? = some true → s.fb.fault = true

/-- `sysTick` preserves `drivePrevInv`. -/
theorem sysTick_drivePrevInv (s : SysState) (inp : TickIn)
    (hs : drivePrevInv s) : drivePrevInv (sysTick s inp) := by
  intro j hj
  unfold sysTick at hj ⊢
  dsimp only at hj ⊢
  rw [List.getElem?_map] at hj
  obtain ⟨d, hd, hdf⟩ := Option.map_eq_some'.mp hj
  obtain ⟨a, b, _, hb, hab⟩ := zipWith_getElem?_inv driveGetFeedback _ _ _ _ hd
  subst hab
  cases b with
  | true => exact mgrGetFeedback_fault_of_fb _ _ _ (hs j hb)
  | false =>
    apply mgrGetFeedback_fault_of_any
    rw [List.any_eq_true]
    refine ⟨driveGetFeedback a false, List.getElem?_mem hd, ?_⟩
    simp [hdf, driveGetFeedback_faultPrev]

/-- The initial state satisfies `drivePrevInv`. -/
theorem drivePrevInv_init (k : Nat) : drivePrevInv (mgrInit k) := by
  intro j hj
  unfold mgrInit at hj
  dsimp only at hj
  rw [List.getElem?_replicate] at hj
  split at hj <;> simp_all

/-- `drivePrevInv` holds along every trace from the initial state. -/
theorem sysRun_drivePrevInv (inputs : Nat → TickIn) (k : Nat) :
    ∀ n, drivePrevInv (sysRun inputs (mgrInit k) n) := by
  intro n
  induction n with
  | zero => exact drivePrevInv_init k
  | succ n ih => exact sysTick_drivePrevInv _ _ ih

/-- The drive-snapshot list keeps length `k` along a trace with `k` drives
per tick. -/
theorem sysRun_drivePrev_length (inputs : Nat → TickIn) (k : Nat)
    (hlen : ∀ u, ((inputs u).drives).length = k) :
    ∀ n, ((sysRun inputs (mgrInit k) n).drivePrev).length = k := by
  intro n
  induction n with
  | zero => simp [sysRun, mgrInit]
  | succ n ih =>
    show ((sysTick _ _).drivePrev).length = k
    unfold sysTick
    dsimp only
    rw [List.length_map, List.length_zipWith, hlen n, ih]
    simp

/-- Claim C5: along any trace from the initial state with `k` drives, if
drive `i`'s feedback reports the FAULT state on every tick from `N` on,
then the manager `fault` attribute is true on every tick from `N + 2` on
(it is in fact already true on tick `N`; the reported feedback of tick `u`
is `(sysRun … (u+1)).fb`). -/
theorem c5_drive_fault_escalates (inputs : Nat → TickIn) (k i N : Nat)
    (hlen : ∀ u, ((inputs u).drives).length = k)
    (hF : ∀ u, N ≤ u → ∃ hw, ((inputs u).drives)[i]? = some hw ∧
      hw.state = CiA402State.FAULT) :
    ∀ u, N + 2 ≤ u → (sysRun inputs (mgrInit k) (u + 1)).fb.fault = true := by
  have hNfault : (sysRun inputs (mgrInit k) (N + 1)).fb.fault = true := by
    obtain ⟨hw, hhw, hst⟩ := hF N le_rfl
    have hik : i < k := by
      obtain ⟨hlt, -⟩ := List.getElem?_eq_some.mp hhw
      rw [hlen N] at hlt
      exact hlt
    have hplen := sysRun_drivePrev_length inputs k hlen N
    obtain ⟨b, hb⟩ : ∃ b, ((sysRun inputs (mgrInit k) N).drivePrev)[i]? = some b :=
      ⟨_, List.getElem?_eq_getElem (by rw [hplen]; exact hik)⟩
    have hdp : ((sysRun inputs (mgrInit k) (N + 1)).drivePrev)[i]? = some true := by
      show ((sysTick (sysRun inputs (mgrInit k) N) (inputs N)).drivePrev)[i]?
        = some true
      unfold sysTick
      dsimp only
      rw [List.getElem?_map,
        zipWith_getElem?_some driveGetFeedback _ _ i hw b hhw hb]
      simp [driveGetFeedback_fault_of_FAULT hw b hst]
    exact sysRun_drivePrevInv inputs k (N + 1) i hdp
  have hmono : ∀ v, (sysRun inputs (mgrInit k) (N + 1 + v)).fb.fault = true := by
    intro v
    induction v with
    | zero => exact hNfault
    | succ v ih => exact sysTick_fault_mono _ _ ih
  intro u hu
  have hidx : u + 1 = N + 1 + (u - N) := by omega
  rw [hidx]
  exact hmono (u - N)

/-- Witness for `c5_drive_fault_escalates`: one drive permanently in FAULT
from tick 0; the manager fault is reported by tick 2. -/
theorem c5_drive_fault_escalates_witness :
    (sysRun (fun _ => c5In) (mgrInit 1) 3).fb.fault = true :=
  c5_drive_fault_escalates (fun _ => c5In) 1 0 0 (fun _ => rfl)
    (fun _ _ => ⟨c5Hw, rfl, rfl⟩) 2 (by decide)

/-- Claim C3 (on the code as written): at a tick where a rising edge of
`state_set` carries a valid external STOP command (differing from the
current START command) and a new drive fault is observed in the same tick
while the supervisor was not in STATE_FAULT, `set_command` reaches
`if effect_external_state_cmd and cmd_out.get("fault")` — but `"fault"` is
not among the declared `command_out` attributes (`state`, `state_log`,
`command_complete`, `reset`, `drive_state`), so the access is an
undeclared-attribute programmer error and the call aborts instead of
squelching the command and logging it as ignored.  This contradicts the
code's own comment ("A new fault will override external command update")
and warning text; the claim describes the intent and the code is a slip
(the check was presumably meant to read the `feedback_out` fault). -/
theorem c3_fault_squelch_keyerror :
    set_command .start_complete c3CmdOut c3CmdOut c3CmdIn c3CmdInPrev
        true false [] =
      Except.error "KeyError: \x27fault\x27 undeclared in command_out" := rfl

/-- Claim C6: while the FSM is in an init state other than `init_complete`
(`init_command` or `init_1`), an externally commanded non-INIT state (STOP,
START or FAULT carried by a rising edge of `state_set`, with no new fault
feedback in the tick) is rejected by the accept-command guard:
`set_command` completes normally with the commanded state left at
STATE_INIT, the FSM state unchanged (no transition), and a warning logged
(the `Canceled` handler's "Unable to honor" warning; the guard's own
warning additionally fires when the commanded state had changed). -/
theorem c6_init_guard_rejects (fsm : FsmState)
    (hfsm : fsm = .init_command ∨ fsm = .init_1)
    (cmdPrev : CmdOut) (hstate : cmdPrev.state = STATE_INIT)
    (cmdIn : CmdIn) (hset : cmdIn.state_set = true)
    (hcmd : cmdIn.state_cmd = STATE_STOP ∨ cmdIn.state_cmd = STATE_START ∨
      cmdIn.state_cmd = STATE_FAULT)
    (cmdInPrev : CmdIn) (hsetPrev : cmdInPrev.state_set = false)
    (fbFaultPrev : Bool) (devs : List DevView) :
    ∃ r, set_command fsm cmdPrev cmdPrev cmdIn cmdInPrev false fbFaultPrev devs
        = Except.ok r ∧
      r.cmdOut.state = STATE_INIT ∧ r.fsm = fsm ∧
      r.logs.any (fun l => l.level = LogLevel.warning) = true := by
  obtain ⟨s, sl, cc, rs, ds⟩ := cmdPrev
  obtain ⟨sc, ss⟩ := cmdIn
  obtain ⟨scp, ssp⟩ := cmdInPrev
  dsimp only at hstate hset hcmd hsetPrev
  subst hstate hset hsetPrev
  rcases hfsm with h | h <;> subst h <;>
    rcases hcmd with h | h | h <;> subst h <;>
      exact ⟨_, rfl, rfl, rfl, rfl⟩

/-- Witness for `c6_init_guard_rejects`: the spec's S4 scenario, an
external START command while the FSM is in `init_1`. -/
theorem c6_init_guard_rejects_witness :
    ∃ r, set_command .init_1 cmdOutDefaults cmdOutDefaults
        { state_cmd := STATE_START, state_set := true }
        { state_cmd := STATE_START, state_set := false } false false []
        = Except.ok r ∧
      r.cmdOut.state = STATE_INIT ∧ r.fsm = FsmState.init_1 ∧
      r.logs.any (fun l => l.level = LogLevel.warning) = true :=
  c6_init_guard_rejects .init_1 (Or.inr rfl) cmdOutDefaults rfl
    { state_cmd := STATE_START, state_set := true } rfl
    (Or.inr (Or.inl rfl))
    { state_cmd := STATE_START, state_set := false } rfl false []

/-- `query_devices(oper=False)` is empty exactly when every device is
operational. -/
theorem notOper_isEmpty_iff (devs : List DevView) :
    (queryNotOper devs).isEmpty = true ↔
      devs.all (fun d => d.oper) = true := by
  simp [queryNotOper, List.isEmpty_iff, List.filter_eq_nil_iff,
    List.all_eq_true]

/-- `query_devices(goal_reached=False)` is empty exactly when every device
reached its goal. -/
theorem goalNotReached_isEmpty_iff (devs : List DevView) :
    (queryGoalNotReached devs).isEmpty = true ↔
      devs.all (fun d => d.goal_reached) = true := by
  simp [queryGoalNotReached, List.isEmpty_iff, List.filter_eq_nil_iff,
    List.all_eq_true]

/-- Claim C9: the `init_complete` event fired from `init_1` succeeds
exactly when all drives are operational and all drives have reached their
goal state; on success the entry action marks the command complete and
auto-issues a stop command: the commanded state becomes STATE_STOP with
`state_log` exactly `"Automatic 'stop' command at init complete"`. -/
theorem c9_init_complete (devs : List DevView) (msg : String)
    (cur prev : CmdOut) :
    ((trigger .init_complete msg .init_1 cur prev devs).status = .ok ↔
      devs.all (fun d => d.oper) = true ∧
        devs.all (fun d => d.goal_reached) = true) ∧
    ((trigger .init_complete msg .init_1 cur prev devs).status = .ok →
      (trigger .init_complete msg .init_1 cur prev devs).fsm = .init_complete ∧
      (trigger .init_complete msg .init_1 cur prev devs).cmdOut.command_complete
        = true ∧
      (trigger .init_complete msg .init_1 cur prev devs).cmdOut.state
        = STATE_STOP ∧
      (trigger .init_complete msg .init_1 cur prev devs).cmdOut.state_log
        = "Automatic \x27stop\x27 command at init complete") := by
  cases hno : (queryNotOper devs).isEmpty with
  | false =>
    constructor
    · simp [trigger, onBefore, eventSrcOk, hno]
      intro hall
      exact absurd ((notOper_isEmpty_iff devs).mpr (List.all_eq_true.mpr hall))
        (by simp [hno])
    · simp [trigger, onBefore, eventSrcOk, hno]
  | true =>
    cases hgr : (queryGoalNotReached devs).isEmpty with
    | false =>
      constructor
      · simp [trigger, onBefore, eventSrcOk, hno, hgr]
        intro _
        by_contra hex
        push_neg at hex
        have hall : ∀ x ∈ devs, x.goal_reached = true := by
          intro x hx
          cases hxg : x.goal_reached with
          | true => rfl
          | false => exact absurd hxg (hex x hx)
        exact absurd
          ((goalNotReached_isEmpty_iff devs).mpr (List.all_eq_true.mpr hall))
          (by simp [hgr])
      · simp [trigger, onBefore, eventSrcOk, hno, hgr]
    | true =>
      constructor
      · simp [trigger, onBefore, eventSrcOk, hno, hgr]
        exact ⟨List.all_eq_true.mp ((notOper_isEmpty_iff devs).mp hno),
          List.all_eq_true.mp ((goalNotReached_isEmpty_iff devs).mp hgr)⟩
      · intro _
        refine ⟨?_, ?_, ?_, ?_⟩ <;>
          simp [trigger, onBefore, onEnter, fsm_finalize_command, eventSrcOk,
            eventDst, hno, hgr]

/-- Witness for `c9_init_complete`: one operational drive at its goal. -/
theorem c9_init_complete_witness :
    (trigger .init_complete "m" .init_1 cmdOutDefaults cmdOutDefaults
        [{ oper := true, goal_reached := true }]).status = .ok ∧
      (trigger .init_complete "m" .init_1 cmdOutDefaults cmdOutDefaults
        [{ oper := true, goal_reached := true }]).cmdOut.state = STATE_STOP := by
  have h := c9_init_complete [{ oper := true, goal_reached := true }] "m"
    cmdOutDefaults cmdOutDefaults
  have hok := h.1.mpr ⟨by decide, by decide⟩
  exact ⟨hok, (h.2 hok).2.2.1⟩

/-- Unfolding of `run_loop` on a nonempty outcome schedule. -/
theorem run_loop_cons (phases : CmdOut → CmdOut) (o : Option TickExc)
    (rest : List (Option TickExc)) (st : LoopState) :
    run_loop phases (o :: rest) st =
      if st.shutdown = true then st
      else run_loop phases rest (run_loop_step phases o st) := rfl

/-- Once `shutdown` is set, `run_loop` performs no further tick. -/
theorem run_loop_of_shutdown (phases : CmdOut → CmdOut)
    (rest : List (Option TickExc)) (st : LoopState)
    (h : st.shutdown = true) : run_loop phases rest st = st := by
  cases rest with
  | nil => rfl
  | cons o rest =>
    rw [run_loop_cons, if_pos h]

/-- Claim C8: when a tick's phases raise an unhandled exception, `run_loop`
catches it, forces `state=STATE_FAULT` with `state_log="Unexpected
exception"`, leaves `shutdown` clear and continues with the remaining
schedule; when the phases raise the operator interrupt,
`read_update_write` catches it, sets `shutdown`, and the loop ends after
the current tick. -/
theorem c8_exception_containment (phases : CmdOut → CmdOut) (st : LoopState)
    (rest : List (Option TickExc)) (h : st.shutdown = false) :
    (run_loop phases (some .exc :: rest) st =
        run_loop phases rest (run_loop_step phases (some .exc) st) ∧
      (run_loop_step phases (some .exc) st).cmdOut.state = STATE_FAULT ∧
      (run_loop_step phases (some .exc) st).cmdOut.state_log
        = "Unexpected exception" ∧
      (run_loop_step phases (some .exc) st).shutdown = false) ∧
    (run_loop phases (some .kbInt :: rest) st =
        run_loop_step phases (some .kbInt) st ∧
      (run_loop_step phases (some .kbInt) st).shutdown = true) := by
  have hkb : (run_loop_step phases (some .kbInt) st).shutdown = true := by
    unfold run_loop_step
    dsimp only
    split <;> rfl
  refine ⟨⟨?_, ?_, ?_, ?_⟩, ?_, hkb⟩
  · rw [run_loop_cons, if_neg (by simp [h])]
  · unfold run_loop_step
    dsimp only
    split <;> rfl
  · unfold run_loop_step
    dsimp only
    split <;> rfl
  · unfold run_loop_step
    dsimp only
    split <;> exact h
  · rw [run_loop_cons, if_neg (by simp [h])]
    exact run_loop_of_shutdown phases rest _ hkb

/-- Witness for `c8_exception_containment` at a concrete loop state. -/
theorem c8_exception_containment_witness :
    (run_loop_step id (some .exc) c8St).cmdOut.state = STATE_FAULT ∧
      (run_loop_step id (some .kbInt) c8St).shutdown = true :=
  ⟨(c8_exception_containment id c8St [] rfl).1.2.1,
   (c8_exception_containment id c8St [] rfl).2.2⟩

end HwMgr
